import Mathlib

/-!
A shallow embedding of the control core of `TTCatToy.ino` (TinkerTechCatToy):
the mode state machine driven by button-release events, the manual servo
positioning, the autonomous random sweep generator, the ambient LED mode and
the change-filtered servo update.  Arduino integer arithmetic (`map`, signed
division truncating toward zero, `random(lo, hi)` with an exclusive upper
bound) is embedded over `Int`/`Nat`; randomness is made explicit by passing
the raw draw `r : Nat` of the underlying generator as an argument.
-/

namespace TTCatToy

/-! ### Constants from the sketch -/

def LED_COUNT : Nat := 16

def MIN_PAN : Int := 23
def MAX_PAN : Int := 150
def MIN_TILT : Int := 2
def MAX_TILT : Int := 37

def MODE_NORMAL : Int := 0
def MODE_AUTO : Int := 1
def MODE_LED : Int := 2

/-! ### Arduino primitives -/

/-- Arduino's `map(x, in_min, in_max, out_min, out_max)`:
`(x - in_min) * (out_max - out_min) / (in_max - in_min) + out_min`,
where `/` is C `long` division, i.e. truncation toward zero (`Int.tdiv`). -/
def map (x in_min in_max out_min out_max : Int) : Int :=
  Int.tdiv ((x - in_min) * (out_max - out_min)) (in_max - in_min) + out_min

/-- Arduino's `random(lo, hi)`: a value in `[lo, hi - 1]` — the upper bound
is exclusive.  The underlying generator draw is passed explicitly as
`r : Nat`; the library computes `lo + r % (hi - lo)`. -/
def random (lo hi : Int) (r : Nat) : Int :=
  lo + ((r % (hi - lo).toNat : Nat) : Int)

/-! ### State of the sketch's globals touched by `checkButton` -/

/-- A color handed to the NeoPixel strip: either the gamma-corrected HSV color
`strip.gamma32(strip.ColorHSV(hue, sat, val))` or a plain `strip.Color(r, g, b)`.
The conversions themselves live in the external LED library; the core only
forwards the computed components. -/
inductive Color where
  | hsv (hue sat val : Int)
  | rgb (r g b : Int)
deriving DecidableEq

/-- Diagnostic lines printed on the serial port by `checkButton`. -/
inductive LogMsg where
  | buttonPressed
  | modeValue (m : Int)
  | enteringAuto
  | enteringLED
  | enteringNormal
  | invalidCase
deriving DecidableEq

/-- The globals of the sketch read or written by `checkButton`:
`run_mode`, the static locals `button_was_pressed` / `last_button_check`,
the status LED pin, the strip pixels, the last PWM value written to the
laser pin, the module-level `laser_brightness` variable, and the serial log. -/
structure SysState where
  run_mode : Int
  button_was_pressed : Bool
  last_button_check : Nat
  led_pin : Bool
  strip : List Color
  laser_pwm : Int
  laser_brightness : Int
  log : List LogMsg
deriving DecidableEq

/-- `colorWipe(color, wait)`: sets every pixel of the strip to `color`
(the `wait` delay has no effect on state). -/
def colorWipe (color : Color) : List Color :=
  List.replicate LED_COUNT color

/-- The `switch (run_mode)` body of `checkButton`, executed when a
button-release event fires.  `pan_raw` and `tilt_raw` are the
`analogRead` values of the two potentiometers at that moment. -/
def onReleaseEvent (s : SysState) (pan_raw tilt_raw : Int) : SysState :=
  let s0 := { s with log := s.log ++ [LogMsg.buttonPressed, LogMsg.modeValue s.run_mode] }
  if s0.run_mode = MODE_NORMAL then
    { s0 with log := s0.log ++ [LogMsg.enteringAuto],
              led_pin := true,
              run_mode := MODE_AUTO }
  else if s0.run_mode = MODE_AUTO then
    let fade_val := map pan_raw 0 1023 60 255
    let pixel_hue := map tilt_raw 0 1023 0 65536
    { s0 with log := s0.log ++ [LogMsg.enteringLED],
              led_pin := false,
              strip := colorWipe (Color.hsv pixel_hue 255 fade_val),
              run_mode := MODE_LED }
  else if s0.run_mode = MODE_LED then
    { s0 with log := s0.log ++ [LogMsg.enteringNormal],
              strip := colorWipe (Color.rgb 0 0 0),
              run_mode := MODE_NORMAL }
  else
    { s0 with log := s0.log ++ [LogMsg.invalidCase] }

/-- One invocation of `checkButton`.  `now` is `millis()`, `button_line` the
raw digital read of the button pin (active low, so pressed = `!button_line`),
`hold_tilt` the successive `analogRead(TILT_POT)` samples taken by the
while-loop for as long as the button stays held (the loop exits only once the
button reads released, so after it the pressed flag is false), and
`pan_raw` / `tilt_raw` the potentiometer reads used by a mode transition. -/
def checkButton (s : SysState) (now : Nat) (button_line : Bool)
    (hold_tilt : List Int) (pan_raw tilt_raw : Int) : SysState :=
  if now - s.last_button_check > 100 then
    let button_pressed := !button_line
    let entered_hold := button_pressed && s.button_was_pressed
    let laser_pwm1 :=
      if entered_hold then
        hold_tilt.foldl (fun _ samp => map samp 0 1023 0 255) s.laser_pwm
      else s.laser_pwm
    let final_pressed := if entered_hold then false else button_pressed
    let s1 := { s with laser_pwm := laser_pwm1 }
    let s2 :=
      if !final_pressed && s.button_was_pressed then
        onReleaseEvent s1 pan_raw tilt_raw
      else s1
    { s2 with last_button_check := now, button_was_pressed := final_pressed }
  else
    s

/-- The cyclic successor relation on modes realised by the `switch` in
`checkButton`; out-of-range values are left unchanged (default branch). -/
def nextMode (m : Int) : Int :=
  if m = MODE_NORMAL then MODE_AUTO
  else if m = MODE_AUTO then MODE_LED
  else if m = MODE_LED then MODE_NORMAL
  else m

/-- Whether an invocation of `checkButton` fires a release event: the
100 ms rate limit must have elapsed and the button must have been pressed at
the previous poll (if it is still held now, the hold-loop blocks until the
physical release and the event then fires). -/
def releaseFires (s : SysState) (now : Nat) : Bool :=
  decide (now - s.last_button_check > 100) && s.button_was_pressed

/-! ### Change-filtered servo update (`updateServos`) -/

/-- The static locals of `updateServos`: `old_pan_pos` and `old_tilt_pos`,
both initialised to `0`. -/
structure ServoFilter where
  old_pan_pos : Int
  old_tilt_pos : Int
deriving DecidableEq

/-- The initial values of the static locals of `updateServos`. -/
def initServoFilter : ServoFilter := ⟨0, 0⟩

/-- One call of `updateServos` with the globals `pan_pos` / `tilt_pos` set by
the caller.  Returns the static-local state after the call together with the
write issued on each axis (`some a` = `pan.write(a)` resp. `tilt.write(a)`,
`none` = suppressed).  An axis is written exactly when
`abs(old - new) > 1`.  N.B. the sketch never assigns `old_pan_pos` or
`old_tilt_pos` after their initialisation, so the returned state is the
input state. -/
def updateServos (st : ServoFilter) (pan_pos tilt_pos : Int) :
    ServoFilter × Option Int × Option Int :=
  let panWrite := if 1 < (st.old_pan_pos - pan_pos).natAbs then some pan_pos else none
  let tiltWrite := if 1 < (st.old_tilt_pos - tilt_pos).natAbs then some tilt_pos else none
  (st, panWrite, tiltWrite)

/-- Runs `updateServos` over a list of successive `(pan_pos, tilt_pos)`
commands, returning the per-call pair of issued writes. -/
def runUpdates (st : ServoFilter) : List (Int × Int) → List (Option Int × Option Int)
  | [] => []
  | (p, t) :: rest =>
      let r := updateServos st p t
      (r.2.1, r.2.2) :: runUpdates r.1 rest

/-! ### Manual mode (`runNormalMode`) -/

/-- The pair `(pan_pos, tilt_pos)` computed by `runNormalMode` from the raw
potentiometer reads: the inverted linear maps
`map(raw, 0, 1023, MAX, MIN)` for each axis.  These are the values the call
then hands to `updateServos`. -/
def runNormalMode (pan_raw tilt_raw : Int) : Int × Int :=
  (map pan_raw 0 1023 MAX_PAN MIN_PAN, map tilt_raw 0 1023 MAX_TILT MIN_TILT)

/-! ### Ambient LED mode (`runLEDMode`) -/

/-- One call of `runLEDMode`: from the two raw potentiometer reads it
computes `fade_val = map(pan_raw, 0, 1023, 60, 255)` and
`pixel_hue = map(tilt_raw, 0, 1023, 0, 65536)` and sets every pixel of the
strip to the single gamma-corrected HSV color with saturation 255.
Returns `(fade_val, pixel_hue, strip contents)`. -/
def runLEDMode (pan_raw tilt_raw : Int) : Int × Int × List Color :=
  let fade_val := map pan_raw 0 1023 60 255
  let pixel_hue := map tilt_raw 0 1023 0 65536
  (fade_val, pixel_hue, List.replicate LED_COUNT (Color.hsv pixel_hue 255 fade_val))

/-! ### Autonomous mode (`runAutoMode`) -/

/-- The static locals of `runAutoMode`. -/
structure AutoState where
  rapid_mode : Bool
  last_move : Nat
  move_interval : Int
  rapid_move_max : Int
  normal_move_max : Int
  cur_rapid_moves : Int
  cur_normal_moves : Int
deriving DecidableEq

/-- The raw generator draws consumed by one call of `runAutoMode`, passed
explicitly: the redraw of each burst ceiling, the inter-move interval, and
the pan and tilt targets. -/
structure AutoOracle where
  rRapidMax : Nat
  rNormalMax : Nat
  rInterval : Nat
  rPan : Nat
  rTilt : Nat

/-- One call of `runAutoMode`.  `now` is `millis()`.  Returns the updated
static-local state and, when the inter-move interval had elapsed and a move
fired, the `(pan_pos, tilt_pos)` pair written to the servos. -/
def runAutoMode (st : AutoState) (now : Nat) (o : AutoOracle) :
    AutoState × Option (Int × Int) :=
  let st1 :=
    if st.cur_rapid_moves ≥ st.rapid_move_max then
      { st with rapid_move_max := random 10 15 o.rRapidMax,
                cur_rapid_moves := 0,
                rapid_mode := false }
    else st
  let st2 :=
    if st1.cur_normal_moves ≥ st1.normal_move_max then
      { st1 with normal_move_max := random 3 8 o.rNormalMax,
                 cur_normal_moves := 0,
                 rapid_mode := true }
    else st1
  if now - st2.last_move ≥ st2.move_interval.toNat then
    let st3 :=
      if st2.rapid_mode then
        { st2 with move_interval := random 100 800 o.rInterval,
                   cur_rapid_moves := st2.cur_rapid_moves + 1 }
      else
        { st2 with move_interval := random 1000 4000 o.rInterval,
                   cur_normal_moves := st2.cur_normal_moves + 1 }
    let pan_pos := random MIN_PAN MAX_PAN o.rPan
    let tilt_pos :=
      if pan_pos ≥ 144 then random 24 MAX_TILT o.rTilt
      else if pan_pos ≤ 54 then random 12 MAX_TILT o.rTilt
      else random MIN_TILT MAX_TILT o.rTilt
    ({ st3 with last_move := now }, some (pan_pos, tilt_pos))
  else
    (st2, none)

/-- Invariant on the static locals of `runAutoMode`: each burst counter never
exceeds its ceiling, the ceilings lie in the ranges `random` can produce
(`[10, 14]` and `[3, 7]`), and at most one counter has reached its ceiling. -/
def AutoInv (st : AutoState) : Prop :=
  st.cur_rapid_moves ≤ st.rapid_move_max ∧
  10 ≤ st.rapid_move_max ∧ st.rapid_move_max ≤ 14 ∧
  st.cur_normal_moves ≤ st.normal_move_max ∧
  3 ≤ st.normal_move_max ∧ st.normal_move_max ≤ 7 ∧
  ¬(st.rapid_move_max ≤ st.cur_rapid_moves ∧ st.normal_move_max ≤ st.cur_normal_moves)

/-! ### Basic lemmas about the Arduino primitives -/

theorem random_mem (lo hi : Int) (r : Nat) (h : lo < hi) :
    lo ≤ random lo hi r ∧ random lo hi r < hi := by
  unfold random
  have h1 : r % (hi - lo).toNat < (hi - lo).toNat :=
    Nat.mod_lt _ (by omega)
  omega

theorem random_hits (lo hi v : Int) (h1 : lo ≤ v) (h2 : v < hi) :
    random lo hi ((v - lo).toNat) = v := by
  unfold random
  have h3 : (v - lo).toNat % (hi - lo).toNat = (v - lo).toNat :=
    Nat.mod_eq_of_lt (by omega)
  omega

theorem map_up_bounds (x a b : Int) (hx0 : 0 ≤ x) (hx1 : x ≤ 1023) (hab : a ≤ b) :
    a ≤ map x 0 1023 a b ∧ map x 0 1023 a b ≤ b := by
  unfold map
  have hc : 0 ≤ b - a := by omega
  have hnum : 0 ≤ x * (b - a) := mul_nonneg hx0 hc
  rw [sub_zero, Int.tdiv_eq_ediv hnum (by omega)]
  have hq0 : 0 ≤ x * (b - a) / 1023 := Int.ediv_nonneg hnum (by omega)
  have hq1 : x * (b - a) / 1023 ≤ b - a := by
    have hmono : x * (b - a) / 1023 ≤ 1023 * (b - a) / 1023 :=
      Int.ediv_le_ediv (by omega) (by nlinarith)
    have hcancel : (1023 : Int) * (b - a) / 1023 = b - a :=
      Int.mul_ediv_cancel_left _ (by omega)
    omega
  omega

theorem map_down_bounds (x a b : Int) (hx0 : 0 ≤ x) (hx1 : x ≤ 1023) (hab : a ≤ b) :
    a ≤ map x 0 1023 b a ∧ map x 0 1023 b a ≤ b := by
  unfold map
  have hc : 0 ≤ b - a := by omega
  have hnum : x * (a - b) = -(x * (b - a)) := by ring
  have hpos : 0 ≤ x * (b - a) := mul_nonneg hx0 hc
  rw [sub_zero, hnum, Int.neg_tdiv, Int.tdiv_eq_ediv hpos (by omega)]
  have hq0 : 0 ≤ x * (b - a) / 1023 := Int.ediv_nonneg hpos (by omega)
  have hq1 : x * (b - a) / 1023 ≤ b - a := by
    have hmono : x * (b - a) / 1023 ≤ 1023 * (b - a) / 1023 :=
      Int.ediv_le_ediv (by omega) (by nlinarith)
    have hcancel : (1023 : Int) * (b - a) / 1023 = b - a :=
      Int.mul_ediv_cancel_left _ (by omega)
    omega
  omega

/-! ### State-machine lemmas -/

theorem onReleaseEvent_run_mode (s : SysState) (pan_raw tilt_raw : Int) :
    (onReleaseEvent s pan_raw tilt_raw).run_mode = nextMode s.run_mode := by
  unfold onReleaseEvent nextMode
  split_ifs <;> simp_all

theorem checkButton_run_mode (s : SysState) (now : Nat) (button_line : Bool)
    (hold_tilt : List Int) (pan_raw tilt_raw : Int) :
    (checkButton s now button_line hold_tilt pan_raw tilt_raw).run_mode =
      if releaseFires s now then nextMode s.run_mode else s.run_mode := by
  unfold checkButton releaseFires
  by_cases h : now - s.last_button_check > 100
  · simp only [if_pos h, decide_eq_true_eq, h, decide_eq_true, Bool.true_and]
    cases hw : s.button_was_pressed <;> cases button_line <;>
      simp [onReleaseEvent_run_mode]
  · simp [if_neg h, h]

/-! ### Claim theorems -/

/-- Claim C1: mode transitions are strictly cyclic in the order
Manual → Autonomous → Ambient → Manual, occur only on a button-release
event (otherwise `checkButton` leaves the mode unchanged), and three
consecutive release events starting from Manual return the state machine
to Manual. -/
theorem mode_cycle_spec :
    nextMode MODE_NORMAL = MODE_AUTO ∧ nextMode MODE_AUTO = MODE_LED ∧
    nextMode MODE_LED = MODE_NORMAL ∧
    nextMode (nextMode (nextMode MODE_NORMAL)) = MODE_NORMAL ∧
    ∀ (s : SysState) (now : Nat) (button_line : Bool) (hold_tilt : List Int)
      (pan_raw tilt_raw : Int),
      (checkButton s now button_line hold_tilt pan_raw tilt_raw).run_mode =
        if releaseFires s now then nextMode s.run_mode else s.run_mode := by
  exact ⟨by decide, by decide, by decide, by decide, checkButton_run_mode⟩

/-- Claim C2 (code bug): the dead-band filter of `updateServos` compares the
new angle against static locals that are never updated, not against the
angle actually written last.  First trace: the second command repeats the
pan/tilt pair just written (difference 0 ≤ 1 from the last-written angles)
yet both axes are written again.  Second trace: the second command differs
from the last-written angles by 5 > 2 yet no write is issued. -/
theorem updateServos_deadband_ignores_history :
    runUpdates initServoFilter [(100, 100), (100, 100)] =
      [(some 100, some 100), (some 100, some 100)] ∧
    runUpdates initServoFilter [(5, 5), (0, 0)] =
      [(some 5, some 5), (none, none)] := by
  exact ⟨rfl, rfl⟩

/-- Claim C3 (code bug): `updateServos` never assigns `old_pan_pos` or
`old_tilt_pos`, so its static-local state is returned unchanged by every
call — in particular after a call that issues writes (here `100`/`100`)
the memory still holds the initial zeros instead of the written angles. -/
theorem updateServos_memory_never_updated :
    (∀ (st : ServoFilter) (pan_pos tilt_pos : Int),
      (updateServos st pan_pos tilt_pos).1 = st) ∧
    updateServos initServoFilter 100 100 = (initServoFilter, some 100, some 100) := by
  exact ⟨fun _ _ _ => rfl, rfl⟩

/-- Claim C9: when a release event arrives while `run_mode` holds an
out-of-range value, the `switch` falls into its default branch: a diagnostic
is logged and nothing else changes — the mode, the status LED, the strip,
the laser PWM and the laser-brightness variable are all left as they were. -/
theorem invalid_mode_noop (s : SysState) (pan_raw tilt_raw : Int)
    (h : s.run_mode ≠ MODE_NORMAL ∧ s.run_mode ≠ MODE_AUTO ∧ s.run_mode ≠ MODE_LED) :
    (onReleaseEvent s pan_raw tilt_raw).run_mode = s.run_mode ∧
    (onReleaseEvent s pan_raw tilt_raw).led_pin = s.led_pin ∧
    (onReleaseEvent s pan_raw tilt_raw).strip = s.strip ∧
    (onReleaseEvent s pan_raw tilt_raw).laser_pwm = s.laser_pwm ∧
    (onReleaseEvent s pan_raw tilt_raw).laser_brightness = s.laser_brightness ∧
    (onReleaseEvent s pan_raw tilt_raw).log =
      s.log ++ [LogMsg.buttonPressed, LogMsg.modeValue s.run_mode, LogMsg.invalidCase] := by
  obtain ⟨h1, h2, h3⟩ := h
  unfold onReleaseEvent
  simp [h1, h2, h3]

/-- Witness for claim C9 at the concrete out-of-range mode value 5. -/
theorem invalid_mode_noop_witness :
    ((⟨5, false, 0, false, [], 0, 255, []⟩ : SysState).run_mode ≠ MODE_NORMAL ∧
     (⟨5, false, 0, false, [], 0, 255, []⟩ : SysState).run_mode ≠ MODE_AUTO ∧
     (⟨5, false, 0, false, [], 0, 255, []⟩ : SysState).run_mode ≠ MODE_LED) ∧
    (onReleaseEvent ⟨5, false, 0, false, [], 0, 255, []⟩ 7 9).run_mode = 5 := by
  exact ⟨⟨by decide, by decide, by decide⟩,
    (invalid_mode_noop ⟨5, false, 0, false, [], 0, 255, []⟩ 7 9
      ⟨by decide, by decide, by decide⟩).1⟩

/-- Claim C10: no execution of `checkButton` changes the module-level
`laser_brightness` variable — the brightness computed in the button-held
hold-loop lives in a local shadowing variable (it only reaches the laser
PWM pin, as the second conjunct shows for the last hold-loop sample). -/
theorem checkButton_laser_brightness_frame :
    (∀ (s : SysState) (now : Nat) (button_line : Bool) (hold_tilt : List Int)
        (pan_raw tilt_raw : Int),
      (checkButton s now button_line hold_tilt pan_raw tilt_raw).laser_brightness =
        s.laser_brightness) ∧
    (∀ (s : SysState) (now : Nat) (ht : List Int) (x : Int) (pan_raw tilt_raw : Int),
      now - s.last_button_check > 100 → s.button_was_pressed = true →
      (checkButton s now false (ht ++ [x]) pan_raw tilt_raw).laser_pwm =
        map x 0 1023 0 255) := by
  constructor
  · intro s now button_line hold_tilt pan_raw tilt_raw
    unfold checkButton onReleaseEvent
    split_ifs <;> simp_all
    all_goals split_ifs <;> rfl
  · intro s now ht x pan_raw tilt_raw helapsed hwas
    unfold checkButton onReleaseEvent
    simp [helapsed, hwas]
    split_ifs <;> rfl

/-- Witness for claim C10's hold-loop conjunct at a concrete state. -/
theorem checkButton_laser_brightness_frame_witness :
    ((200 : Nat) - (⟨0, true, 0, false, [], 0, 255, []⟩ : SysState).last_button_check > 100) ∧
    (⟨0, true, 0, false, [], 0, 255, []⟩ : SysState).button_was_pressed = true ∧
    (checkButton ⟨0, true, 0, false, [], 0, 255, []⟩ 200 false [511] 1 2).laser_pwm =
      map 511 0 1023 0 255 ∧
    (checkButton ⟨0, true, 0, false, [], 0, 255, []⟩ 200 false [511] 1 2).laser_brightness =
      255 := by
  refine ⟨by decide, rfl, ?_, ?_⟩
  · exact checkButton_laser_brightness_frame.2 ⟨0, true, 0, false, [], 0, 255, []⟩ 200 []
      511 1 2 (by decide) rfl
  · exact checkButton_laser_brightness_frame.1 ⟨0, true, 0, false, [], 0, 255, []⟩ 200 false
      [511] 1 2

/-- When a call of `runAutoMode` fires a move, the pan target is
`random(MIN_PAN, MAX_PAN)` and the tilt target is drawn from the
pan-dependent sub-range. -/
theorem runAutoMode_fired (st : AutoState) (now : Nat) (o : AutoOracle)
    (pan_pos tilt_pos : Int)
    (h : (runAutoMode st now o).2 = some (pan_pos, tilt_pos)) :
    pan_pos = random MIN_PAN MAX_PAN o.rPan ∧
    tilt_pos = (if pan_pos ≥ 144 then random 24 MAX_TILT o.rTilt
                else if pan_pos ≤ 54 then random 12 MAX_TILT o.rTilt
                else random MIN_TILT MAX_TILT o.rTilt) := by
  simp only [runAutoMode] at h
  split_ifs at h <;> simp_all
  all_goals split_ifs <;> omega

/-- Claim C4: under the reachable-state invariant, a rapid burst completes
after between 10 and 15 moves (its counter then equals the drawn ceiling),
whereupon cadence flips to normal, the counter resets to zero and the
ceiling is redrawn; symmetrically a normal burst completes after between
3 and 8 moves and flips cadence to rapid. -/
theorem runAutoMode_burst_quota (st : AutoState) (now : Nat) (o : AutoOracle)
    (h : AutoInv st) :
    AutoInv (runAutoMode st now o).1 ∧
    (st.rapid_move_max ≤ st.cur_rapid_moves →
      (10 ≤ st.cur_rapid_moves ∧ st.cur_rapid_moves ≤ 15) ∧
      (runAutoMode st now o).1.rapid_mode = false ∧
      (runAutoMode st now o).1.cur_rapid_moves = 0 ∧
      (runAutoMode st now o).1.rapid_move_max = random 10 15 o.rRapidMax) ∧
    (st.normal_move_max ≤ st.cur_normal_moves →
      (3 ≤ st.cur_normal_moves ∧ st.cur_normal_moves ≤ 8) ∧
      (runAutoMode st now o).1.rapid_mode = true ∧
      (runAutoMode st now o).1.cur_normal_moves = 0 ∧
      (runAutoMode st now o).1.normal_move_max = random 3 8 o.rNormalMax) := by
  obtain ⟨h1, h2, h3, h4, h5, h6, h7⟩ := h
  have hrm := random_mem 10 15 o.rRapidMax (by omega)
  have hnm := random_mem 3 8 o.rNormalMax (by omega)
  unfold AutoInv
  simp only [runAutoMode]
  split_ifs <;> simp_all <;> omega

/-- Witness for claim C4: a state whose rapid-burst counter has just reached
its ceiling of 10 flips to normal cadence with the counter reset. -/
theorem runAutoMode_burst_quota_witness :
    AutoInv ⟨true, 0, 0, 10, 3, 10, 0⟩ ∧
    (runAutoMode ⟨true, 0, 0, 10, 3, 10, 0⟩ 0 ⟨0, 0, 0, 0, 0⟩).1.rapid_mode = false ∧
    (runAutoMode ⟨true, 0, 0, 10, 3, 10, 0⟩ 0 ⟨0, 0, 0, 0, 0⟩).1.cur_rapid_moves = 0 := by
  have hinv : AutoInv ⟨true, 0, 0, 10, 3, 10, 0⟩ := by
    unfold AutoInv; refine ⟨by decide, by decide, by decide, by decide, by decide,
      by decide, by decide⟩
  have hc := (runAutoMode_burst_quota ⟨true, 0, 0, 10, 3, 10, 0⟩ 0 ⟨0, 0, 0, 0, 0⟩ hinv).2.1
    (by decide)
  exact ⟨hinv, hc.2.1, hc.2.2.1⟩

/-- Claim C5 (amended): every fired move's pan target is
`random(MIN_PAN, MAX_PAN)`, which lies in `[23, 149]` — `random`'s upper
bound is exclusive, so `MAX_PAN = 150` itself is never drawn — and every
value of `[23, 149]` is a possible draw. -/
theorem autoMode_pan_range (st : AutoState) (now : Nat) (o : AutoOracle)
    (pan_pos tilt_pos : Int)
    (h : (runAutoMode st now o).2 = some (pan_pos, tilt_pos)) :
    pan_pos = random MIN_PAN MAX_PAN o.rPan ∧
    (MIN_PAN ≤ pan_pos ∧ pan_pos ≤ 149) ∧
    (∀ v : Int, MIN_PAN ≤ v → v ≤ 149 → ∃ r : Nat, random MIN_PAN MAX_PAN r = v) := by
  obtain ⟨hp, _⟩ := runAutoMode_fired st now o pan_pos tilt_pos h
  have hb := random_mem MIN_PAN MAX_PAN o.rPan (by decide)
  refine ⟨hp, ⟨by omega, ?_⟩, fun v hv1 hv2 => ⟨(v - MIN_PAN).toNat, ?_⟩⟩
  · have : pan_pos < MAX_PAN := by omega
    have hM : MAX_PAN = 150 := rfl
    omega
  · exact random_hits MIN_PAN MAX_PAN v hv1 (by have hM : MAX_PAN = 150 := rfl; omega)

/-- Witness for claim C5 at a concrete firing call of `runAutoMode`. -/
theorem autoMode_pan_range_witness :
    (runAutoMode ⟨false, 0, 0, 10, 3, 0, 0⟩ 0 ⟨0, 0, 0, 0, 0⟩).2 = some (23, 12) ∧
    (MIN_PAN ≤ (23 : Int) ∧ (23 : Int) ≤ 149) := by
  have h : (runAutoMode ⟨false, 0, 0, 10, 3, 0, 0⟩ 0 ⟨0, 0, 0, 0, 0⟩).2 = some (23, 12) := by
    decide
  exact ⟨h, (autoMode_pan_range _ 0 _ 23 12 h).2.1⟩

/-- Claim C5 counterexample: `MAX_PAN = 150` is not a possible pan draw —
`random(MIN_PAN, MAX_PAN)` excludes its upper bound. -/
theorem autoMode_pan_never_max :
    ¬ ∃ r : Nat, random MIN_PAN MAX_PAN r = MAX_PAN := by
  rintro ⟨r, hr⟩
  have hb := (random_mem MIN_PAN MAX_PAN r (by decide)).2
  omega

/-- Claim C6 (amended): for every fired move, if pan ≥ 144 the tilt target
lies in `[24, 36]`, if pan ≤ 54 it lies in `[12, 36]`, and otherwise in
`[MIN_TILT, 36] = [2, 36]` — `random`'s upper bound is exclusive, so
`MAX_TILT = 37` itself is never drawn in any branch. -/
theorem autoMode_tilt_ranges (st : AutoState) (now : Nat) (o : AutoOracle)
    (pan_pos tilt_pos : Int)
    (h : (runAutoMode st now o).2 = some (pan_pos, tilt_pos)) :
    (pan_pos ≥ 144 → 24 ≤ tilt_pos ∧ tilt_pos ≤ 36) ∧
    (pan_pos ≤ 54 → 12 ≤ tilt_pos ∧ tilt_pos ≤ 36) ∧
    (54 < pan_pos → pan_pos < 144 → MIN_TILT ≤ tilt_pos ∧ tilt_pos ≤ 36) := by
  obtain ⟨hp, ht⟩ := runAutoMode_fired st now o pan_pos tilt_pos h
  have hM : MAX_TILT = 37 := rfl
  have hm : MIN_TILT = 2 := rfl
  have h1 := random_mem 24 MAX_TILT o.rTilt (by decide)
  have h2 := random_mem 12 MAX_TILT o.rTilt (by decide)
  have h3 := random_mem MIN_TILT MAX_TILT o.rTilt (by decide)
  split_ifs at ht <;> refine ⟨fun hc => ?_, fun hc => ?_, fun hc1 hc2 => ?_⟩ <;> omega

/-- Witness for claim C6 at a concrete firing call of `runAutoMode`
whose pan draw is 23 ≤ 54. -/
theorem autoMode_tilt_ranges_witness :
    (runAutoMode ⟨false, 0, 0, 10, 3, 0, 0⟩ 5 ⟨0, 0, 0, 0, 0⟩).2 = some (23, 12) ∧
    (12 ≤ (12 : Int) ∧ (12 : Int) ≤ 36) := by
  have h : (runAutoMode ⟨false, 0, 0, 10, 3, 0, 0⟩ 5 ⟨0, 0, 0, 0, 0⟩).2 = some (23, 12) := by
    decide
  exact ⟨h, (autoMode_tilt_ranges _ 5 _ 23 12 h).2.1 (by decide)⟩

/-- Claim C6 counterexample: `MAX_TILT = 37` is not a possible tilt draw in
any of the three pan-dependent sub-ranges — each `random` call excludes its
upper bound. -/
theorem autoMode_tilt_never_max :
    (¬ ∃ r : Nat, random 24 MAX_TILT r = MAX_TILT) ∧
    (¬ ∃ r : Nat, random 12 MAX_TILT r = MAX_TILT) ∧
    (¬ ∃ r : Nat, random MIN_TILT MAX_TILT r = MAX_TILT) := by
  refine ⟨?_, ?_, ?_⟩ <;> rintro ⟨r, hr⟩
  · have hb := (random_mem 24 MAX_TILT r (by decide)).2
    omega
  · have hb := (random_mem 12 MAX_TILT r (by decide)).2
    omega
  · have hb := (random_mem MIN_TILT MAX_TILT r (by decide)).2
    omega

/-- Claim C7: for every sensor reading in `0..1023` the pan angle the core
computes lies in `[MIN_PAN, MAX_PAN] = [23, 150]` and the tilt angle in
`[MIN_TILT, MAX_TILT] = [2, 37]`, both in Manual mode (whose inverted
linear map sends sensor 0 to the maximum angle and 1023 to the minimum)
and in Autonomous mode. -/
theorem core_angles_in_range (pan_raw tilt_raw : Int) (st : AutoState) (now : Nat)
    (o : AutoOracle) (pan_a tilt_a : Int)
    (h0 : 0 ≤ pan_raw) (h1 : pan_raw ≤ 1023) (h2 : 0 ≤ tilt_raw) (h3 : tilt_raw ≤ 1023)
    (hauto : (runAutoMode st now o).2 = some (pan_a, tilt_a)) :
    (MIN_PAN ≤ (runNormalMode pan_raw tilt_raw).1 ∧
      (runNormalMode pan_raw tilt_raw).1 ≤ MAX_PAN) ∧
    (MIN_TILT ≤ (runNormalMode pan_raw tilt_raw).2 ∧
      (runNormalMode pan_raw tilt_raw).2 ≤ MAX_TILT) ∧
    runNormalMode 0 0 = (MAX_PAN, MAX_TILT) ∧
    runNormalMode 1023 1023 = (MIN_PAN, MIN_TILT) ∧
    (MIN_PAN ≤ pan_a ∧ pan_a ≤ MAX_PAN) ∧
    (MIN_TILT ≤ tilt_a ∧ tilt_a ≤ MAX_TILT) := by
  have hpan := map_down_bounds pan_raw MIN_PAN MAX_PAN h0 h1 (by decide)
  have htilt := map_down_bounds tilt_raw MIN_TILT MAX_TILT h2 h3 (by decide)
  obtain ⟨hp, ht⟩ := runAutoMode_fired st now o pan_a tilt_a hauto
  have hpa := random_mem MIN_PAN MAX_PAN o.rPan (by decide)
  have hM : MAX_PAN = 150 := rfl
  have hm : MIN_TILT = 2 := rfl
  have hMt : MAX_TILT = 37 := rfl
  have ht1 := random_mem 24 MAX_TILT o.rTilt (by decide)
  have ht2 := random_mem 12 MAX_TILT o.rTilt (by decide)
  have ht3 := random_mem MIN_TILT MAX_TILT o.rTilt (by decide)
  refine ⟨⟨hpan.1, hpan.2⟩, ⟨htilt.1, htilt.2⟩, by decide, by decide,
    ⟨by omega, by omega⟩, ?_⟩
  split_ifs at ht <;> constructor <;> omega

/-- Witness for claim C7 at sensor readings 500/700 and a concrete firing
call of `runAutoMode`. -/
theorem core_angles_in_range_witness :
    ((0 : Int) ≤ 500 ∧ (500 : Int) ≤ 1023 ∧ (0 : Int) ≤ 700 ∧ (700 : Int) ≤ 1023) ∧
    (runAutoMode ⟨false, 0, 0, 10, 3, 0, 0⟩ 9 ⟨0, 0, 0, 40, 4⟩).2 = some (63, 6) ∧
    (MIN_PAN ≤ (runNormalMode 500 700).1 ∧ (runNormalMode 500 700).1 ≤ MAX_PAN) ∧
    (MIN_PAN ≤ (63 : Int) ∧ (63 : Int) ≤ MAX_PAN) ∧
    (MIN_TILT ≤ (6 : Int) ∧ (6 : Int) ≤ MAX_TILT) := by
  have hauto : (runAutoMode ⟨false, 0, 0, 10, 3, 0, 0⟩ 9 ⟨0, 0, 0, 40, 4⟩).2 =
      some (63, 6) := by decide
  have hc := core_angles_in_range 500 700 ⟨false, 0, 0, 10, 3, 0, 0⟩ 9 ⟨0, 0, 0, 40, 4⟩
    63 6 (by decide) (by decide) (by decide) (by decide) hauto
  exact ⟨⟨by decide, by decide, by decide, by decide⟩, hauto, hc.1,
    hc.2.2.2.2.1, hc.2.2.2.2.2⟩

/-- Claim C8 counterexample: at tilt sensor reading 1023 the computed hue is
`map(1023, 0, 1023, 0, 65536) = 65536`, which is outside `[0, 65535]`. -/
theorem ledMode_hue_overflow :
    (runLEDMode 0 1023).2.1 = 65536 ∧ ¬ (runLEDMode 0 1023).2.1 ≤ 65535 := by
  exact ⟨by decide, by decide⟩

/-- Claim C8 (amended): for every pair of sensor readings in `0..1023` the
brightness/value lies in `[60, 255]` and the computed hue in `[0, 65536]`
(its residue mod 2^16 — the hue the 16-bit HSV conversion receives — lies
in `[0, 65535]`); the strip content is the same single color in every cell,
and the computation is a pure function of the two readings. -/
theorem ledMode_color_spec (pan_raw tilt_raw : Int)
    (h0 : 0 ≤ pan_raw) (h1 : pan_raw ≤ 1023) (h2 : 0 ≤ tilt_raw) (h3 : tilt_raw ≤ 1023) :
    (60 ≤ (runLEDMode pan_raw tilt_raw).1 ∧ (runLEDMode pan_raw tilt_raw).1 ≤ 255) ∧
    (0 ≤ (runLEDMode pan_raw tilt_raw).2.1 ∧ (runLEDMode pan_raw tilt_raw).2.1 ≤ 65536) ∧
    (0 ≤ (runLEDMode pan_raw tilt_raw).2.1 % 65536 ∧
      (runLEDMode pan_raw tilt_raw).2.1 % 65536 ≤ 65535) ∧
    (runLEDMode pan_raw tilt_raw).2.2 =
      List.replicate LED_COUNT
        (Color.hsv (runLEDMode pan_raw tilt_raw).2.1 255 (runLEDMode pan_raw tilt_raw).1) ∧
    runLEDMode pan_raw tilt_raw = runLEDMode pan_raw tilt_raw := by
  have hfade := map_up_bounds pan_raw 60 255 h0 h1 (by decide)
  have hhue := map_up_bounds tilt_raw 0 65536 h2 h3 (by decide)
  refine ⟨hfade, hhue, ⟨Int.emod_nonneg _ (by decide), ?_⟩, rfl, rfl⟩
  have := Int.emod_lt_of_pos ((runLEDMode pan_raw tilt_raw).2.1) (show (0 : Int) < 65536 by decide)
  omega

/-- Witness for claim C8 at the midpoint sensor readings 512/512. -/
theorem ledMode_color_spec_witness :
    ((0 : Int) ≤ 512 ∧ (512 : Int) ≤ 1023) ∧
    (60 ≤ (runLEDMode 512 512).1 ∧ (runLEDMode 512 512).1 ≤ 255) ∧
    (0 ≤ (runLEDMode 512 512).2.1 ∧ (runLEDMode 512 512).2.1 ≤ 65536) := by
  have hc := ledMode_color_spec 512 512 (by decide) (by decide) (by decide) (by decide)
  exact ⟨⟨by decide, by decide⟩, hc.1, hc.2.1⟩

end TTCatToy
